import Mathlib

/-!
Shallow embedding of the masker engine of shelter.nvim
(crates/shelter-core/src/masker.rs).

A Rust `&str` is modelled as a `List Char` (its sequence of Unicode
scalar values); Rust `str::len` (the UTF-8 byte length) is modelled by
`byteLen` below, summing `Char.utf8Size` over the characters, while
`List.length` models the character count (`chars().count()`).
`usize` is modelled by `Nat`, so Rust `saturating_sub` is plain `Nat`
subtraction; `Option<usize>` is `Option Nat`; `i8` is modelled by `Int`,
with the Rust cast `as u8` being reduction modulo 256.
-/

/-- UTF-8 byte length of a string, i.e. Rust `str::len` on the `&str`
whose characters are `s` (the sum of the UTF-8 sizes of its chars). -/
def byteLen (s : List Char) : Nat :=
  (s.map Char.utf8Size).sum

/-- Embedding of `mask_full` (masker.rs lines 12-15): a run of
`mask_char` of length `output_len` when given, else of the byte length
of `value`. -/
def mask_full (value : List Char) (mask_char : Char)
    (output_len : Option Nat) : List Char :=
  List.replicate (output_len.getD (byteLen value)) mask_char

/-- Embedding of `mask_fixed` (masker.rs lines 21-23): exactly `length`
copies of `mask_char`, ignoring `value`. -/
def mask_fixed (_value : List Char) (mask_char : Char)
    (length : Nat) : List Char :=
  List.replicate length mask_char

/-- Embedding of `mask_partial` (masker.rs lines 29-72). `value.chars()`
is the list itself; `saturating_sub` is `Nat` subtraction. -/
def mask_partial (value : List Char) (mask_char : Char)
    (show_start : Nat) (show_end : Nat) (min_mask : Nat)
    (output_len : Option Nat) : List Char :=
  let chars := value
  let value_len := chars.length
  if value_len ≤ show_start + show_end then
    mask_full value mask_char output_len
  else
    let target_len := output_len.getD value_len
    let available_middle := target_len - show_start - show_end
    if available_middle < min_mask then
      mask_full value mask_char output_len
    else
      chars.take show_start
        ++ List.replicate available_middle mask_char
        ++ (if show_end > 0 ∧ chars.length > show_end then
              chars.drop (chars.length - show_end)
            else [])

/-- The FFI options record (`ShelterMaskOptions` from shelter-core's
types module, layout per the repository's tests and the boundary
description): `mask_char` is an `i8` code (modelled as `Int`),
`mask_length`, `show_start`, `show_end`, `min_mask` are `usize`
(`Nat`), `mode` is an integer selector. -/
structure ShelterMaskOptions where
  mask_char : Int
  mask_length : Nat
  mode : Int
  show_start : Nat
  show_end : Nat
  min_mask : Nat

/-- The Rust conversion `options.mask_char as u8 as char`: an `i8`
reinterpreted as a `u8` (reduction modulo 256) then widened to `char`. -/
def i8_as_u8_as_char (code : Int) : Char :=
  Char.ofNat (code % 256).toNat

/-- Embedding of `mask_value` (masker.rs lines 76-96): dispatch on
`options.mode`, with `output_len` derived from `options.mask_length`. -/
def mask_value (value : List Char) (options : ShelterMaskOptions) : List Char :=
  let mask_char := i8_as_u8_as_char options.mask_char
  let output_len : Option Nat :=
    if options.mask_length > 0 then some options.mask_length else none
  match options.mode with
  | 0 => mask_full value mask_char output_len
  | 1 => mask_partial value mask_char options.show_start options.show_end
            options.min_mask output_len
  | _ => mask_full value mask_char output_len

/-- Embedding of `ShelterMaskMode` (closed mode enum used by
`mask_with_mode`). -/
inductive ShelterMaskMode where
  | Full
  | Partial

/-- Embedding of `mask_with_mode` (masker.rs lines 100-105). -/
def mask_with_mode (value : List Char) (mode : ShelterMaskMode)
    (mask_char : Char) : List Char :=
  match mode with
  | ShelterMaskMode.Full => mask_full value mask_char none
  | ShelterMaskMode.Partial => mask_partial value mask_char 3 3 3 none

/-- Helper: structural form of `mask_partial` when neither fallback
fires. The appended tail `s.drop (s.length - se)` is the last `se`
characters, and is `[]` when `se = 0`, matching the source's guard
`show_end > 0 && chars.len() > show_end`. -/
theorem mask_partial_structure (s : List Char) (c : Char)
    (ss se mm : Nat) (ol : Option Nat)
    (h1 : ss + se < s.length)
    (h2 : mm ≤ (ol.getD s.length) - ss - se) :
    mask_partial s c ss se mm ol
      = s.take ss ++ List.replicate ((ol.getD s.length) - ss - se) c
          ++ s.drop (s.length - se) := by
  have hn : ¬ s.length ≤ ss + se := by omega
  have hm : ¬ ((ol.getD s.length) - ss - se < mm) := by omega
  by_cases hse : se = 0
  · subst hse
    have hn0 : ¬ s.length ≤ ss := by omega
    have hm0 : ¬ ((ol.getD s.length) - ss < mm) := by omega
    simp [ mask_partial, hn0, hm0]
  · have hcond : se > 0 ∧ s.length > se := ⟨Nat.pos_of_ne_zero hse, by omega⟩
    simp [ mask_partial, hn, hm, hcond]

/-- C3: `mask_full` with no explicit length returns a run of the mask
character whose length is the byte length of the value (not its
character count — witnessed by the two-byte character U+00E9); with an
explicit length `k` it returns exactly `k` copies; it is total by
construction, and an empty value or a zero output length yields the
empty result. -/
theorem mask_full_length_spec (s : List Char) (c : Char) (k : Nat) :
    (mask_full s c none).length = byteLen s
    ∧ mask_full s c none = List.replicate (byteLen s) c
    ∧ mask_full s c (some k) = List.replicate k c
    ∧ (mask_full [Char.ofNat 233] c none).length = 2
    ∧ ([Char.ofNat 233] : List Char).length = 1
    ∧ mask_full [] c none = []
    ∧ mask_full s c (some 0) = [] := by
  refine ⟨?_, rfl, rfl, ?_, rfl, rfl, rfl⟩
  · simp [mask_full]
  · simp [mask_full, byteLen]
    rfl

/-- C5: `mask_fixed` returns exactly `length` copies of the mask
character, ignoring the content of the value entirely; length `0`
yields the empty string. -/
theorem mask_fixed_spec (s : List Char) (c : Char) (k : Nat) :
    mask_fixed s c k = List.replicate k c
    ∧ (mask_fixed s c k).length = k
    ∧ mask_fixed s c 0 = [] := by
  refine ⟨rfl, ?_, rfl⟩
  simp [mask_fixed]

/-- C9: `mask_full` with an explicit output length coincides with
`mask_fixed` at that length: the content of the value is ignored. -/
theorem mask_full_some_eq_mask_fixed (s : List Char) (c : Char) (k : Nat) :
    mask_full s c (some k) = mask_fixed s c k := rfl

/-- C1: when the value's character count is at most
`show_start + show_end`, or the middle
`max(0, target - show_start - show_end)` (with `target` the output
length when given, else the character count) is below `min_mask`,
`mask_partial` falls back to `mask_full` with the same output length. -/
theorem mask_partial_fallback (s : List Char) (c : Char)
    (ss se mm : Nat) (ol : Option Nat)
    (h : s.length ≤ ss + se ∨ (ol.getD s.length) - ss - se < mm) :
    mask_partial s c ss se mm ol = mask_full s c ol := by
  rcases h with h | h
  · simp [ mask_partial, h]
  · by_cases h2 : s.length ≤ ss + se
    · simp [ mask_partial, h2]
    · simp [ mask_partial, h2, h]

/-- Witness for C1 at `mask_partial("short", '*', 3, 3, 3, None)`:
5 <= 3 + 3, so the fallback applies. -/
theorem mask_partial_fallback_witness :
    mask_partial "short".data '*' 3 3 3 none
      = mask_full "short".data '*' none :=
  mask_partial_fallback "short".data '*' 3 3 3 none (Or.inl (by decide))

/-- C2: when neither fallback fires, the result is the first
`show_start` characters, then `middle` copies of the mask character,
then the last `show_end` characters (the empty list when
`show_end = 0`); in particular the first `show_start` and last
`show_end` characters of the input are preserved verbatim. -/
theorem mask_partial_no_fallback (s : List Char) (c : Char)
    (ss se mm : Nat) (ol : Option Nat)
    (h1 : ss + se < s.length)
    (h2 : mm ≤ (ol.getD s.length) - ss - se) :
    mask_partial s c ss se mm ol
      = s.take ss ++ List.replicate ((ol.getD s.length) - ss - se) c
          ++ s.drop (s.length - se)
    ∧ ( mask_partial s c ss se mm ol).take ss = s.take ss
    ∧ ( mask_partial s c ss se mm ol).drop
        (( mask_partial s c ss se mm ol).length - se)
        = s.drop (s.length - se) := by
  have hstruct := mask_partial_structure s c ss se mm ol h1 h2
  have hA : (s.take ss).length = ss := List.length_take_of_le (by omega)
  have hC : (s.drop (s.length - se)).length = se := by
    rw [List.length_drop]
    omega
  refine ⟨hstruct, ?_, ?_⟩
  · rw [hstruct, List.append_assoc]
    exact List.take_left' hA
  · rw [hstruct]
    have hidx :
        ((s.take ss ++ List.replicate ((ol.getD s.length) - ss - se) c)
            ++ s.drop (s.length - se)).length - se
          = (s.take ss ++ List.replicate ((ol.getD s.length) - ss - se) c).length := by
      simp [hA, hC]
      omega
    rw [hidx]
    exact List.drop_left _ _

/-- Witness for C2 at `mask_partial("secretvalue", '*', 3, 3, 3, None)`:
the character count 11 exceeds 3 + 3 and the middle 5 is at least 3. -/
theorem mask_partial_no_fallback_witness :
    mask_partial "secretvalue".data '*' 3 3 3 none
      = "secretvalue".data.take 3 ++ List.replicate 5 '*'
          ++ "secretvalue".data.drop 8
    ∧ ( mask_partial "secretvalue".data '*' 3 3 3 none).take 3
        = "secretvalue".data.take 3 := by
  have h := mask_partial_no_fallback "secretvalue".data '*' 3 3 3 none
    (by decide) (by decide)
  exact ⟨h.1.trans (by decide), h.2.1⟩

/-- C10: when neither fallback fires, the character count of the
result is `show_start + show_end + max(0, target - show_start -
show_end)`; at the witness this strictly exceeds the requested output
length. -/
theorem mask_partial_result_length (s : List Char) (c : Char)
    (ss se mm : Nat) (ol : Option Nat)
    (h1 : ss + se < s.length)
    (h2 : mm ≤ (ol.getD s.length) - ss - se) :
    ( mask_partial s c ss se mm ol).length
      = ss + se + ((ol.getD s.length) - ss - se) := by
  rw [mask_partial_structure s c ss se mm ol h1 h2]
  have hA : (s.take ss).length = ss := List.length_take_of_le (by omega)
  have hC : (s.drop (s.length - se)).length = se := by
    rw [List.length_drop]
    omega
  simp only [List.length_append, List.length_replicate, hA, hC]
  omega

/-- Witness for C10 at value `abcdefg`, `show_start = show_end = 3`,
`min_mask = 0`, `output_len = some 2`: neither fallback fires (7 > 6,
middle 0 >= 0), and the result has 6 characters, strictly more than
the requested output length 2. -/
theorem mask_partial_result_length_witness :
    ( mask_partial "abcdefg".data '*' 3 3 0 (some 2)).length
        = 3 + 3 + ((some 2).getD "abcdefg".data.length - 3 - 3)
    ∧ ( mask_partial "abcdefg".data '*' 3 3 0 (some 2)).length > 2 := by
  have h := mask_partial_result_length "abcdefg".data '*' 3 3 0 (some 2)
    (by decide) (by decide)
  exact ⟨h, by rw [h]; decide⟩

/-- C6: `mask_with_mode` with mode `Full` is `mask_full` with no output
length, and with mode `Partial` it is `mask_partial` with the fixed
defaults `show_start = show_end = min_mask = 3`. -/
theorem mask_with_mode_spec (v : List Char) (c : Char) :
    mask_with_mode v ShelterMaskMode.Full c = mask_full v c none
    ∧ mask_with_mode v ShelterMaskMode.Partial c
        = mask_partial v c 3 3 3 none :=
  ⟨rfl, rfl⟩

/-- Helper: `Char.ofNat` of a code below 256 round-trips through
`Char.toNat` (all such codes are valid scalar values). -/
theorem toNat_char_ofNat_lt (n : Nat) (hn : n < 256) :
    (Char.ofNat n).toNat = n := by
  have hv : n.isValidChar := Or.inl (by omega)
  rw [Char.ofNat, dif_pos hv]
  rfl

/-- C8: the concrete scenarios of the spec:
`mask_partial("secretvalue", '*', 3, 3, 3, None)` is `sec*****lue`, and
`mask_partial("short", '*', 3, 3, 3, None)` is `*****` (fallback). -/
theorem mask_partial_concrete_scenarios :
    mask_partial "secretvalue".data '*' 3 3 3 none = "sec*****lue".data
    ∧ mask_partial "short".data '*' 3 3 3 none = "*****".data := by
  constructor <;> decide

/-- C4: `mask_value` dispatches on `options.mode`: mode 1 yields
`mask_partial` with the options' `show_start`, `show_end`, `min_mask`;
mode 0 or any other mode yields `mask_full`; in both cases the output
length is `options.mask_length` when positive, else absent, and the
mask character, derived from the `i8` code, has a code point in the
0-255 range. -/
theorem mask_value_dispatch (v : List Char) (o : ShelterMaskOptions) :
    (i8_as_u8_as_char o.mask_char).toNat < 256
    ∧ (o.mode = 1 →
        mask_value v o
          = mask_partial v (i8_as_u8_as_char o.mask_char)
              o.show_start o.show_end o.min_mask
              (if o.mask_length > 0 then some o.mask_length else none))
    ∧ (o.mode ≠ 1 →
        mask_value v o
          = mask_full v (i8_as_u8_as_char o.mask_char)
              (if o.mask_length > 0 then some o.mask_length else none)) := by
  have hn : (o.mask_char % 256).toNat < 256 := by omega
  refine ⟨?_, ?_, ?_⟩
  · unfold i8_as_u8_as_char
    rw [toNat_char_ofNat_lt _ hn]
    exact hn
  · intro h
    simp only [mask_value, h]
  · intro h
    simp only [mask_value]
    split
    · rfl
    · exact absurd (by assumption) h
    · rfl

/-- Witness for C4 at value `password` and options
`{mask_char = 42, mask_length = 0, mode = 1, show_start = 2,
show_end = 2, min_mask = 3}`. -/
theorem mask_value_dispatch_witness :
    mask_value "password".data ⟨42, 0, 1, 2, 2, 3⟩
      = mask_partial "password".data (i8_as_u8_as_char 42) 2 2 3 none :=
  (mask_value_dispatch "password".data ⟨42, 0, 1, 2, 2, 3⟩).2.1 rfl

/-- C7: every masking operation of the engine is a deterministic
function of its arguments alone: two invocations with equal arguments
return equal results (the embedding is state-free, so no global or
hidden state can influence the output). -/
theorem masker_deterministic (v v' : List Char) (c c' : Char)
    (ol ol' : Option Nat) (k k' ss ss' se se' mm mm' : Nat)
    (o o' : ShelterMaskOptions) (m m' : ShelterMaskMode)
    (hv : v = v') (hc : c = c') (hol : ol = ol') (hk : k = k')
    (hss : ss = ss') (hse : se = se') (hmm : mm = mm')
    (ho : o = o') (hm : m = m') :
    mask_full v c ol = mask_full v' c' ol'
    ∧ mask_fixed v c k = mask_fixed v' c' k'
    ∧ mask_partial v c ss se mm ol = mask_partial v' c' ss' se' mm' ol'
    ∧ mask_value v o = mask_value v' o'
    ∧ mask_with_mode v m c = mask_with_mode v' m' c' := by
  subst hv hc hol hk hss hse hmm ho hm
  exact ⟨rfl, rfl, rfl, rfl, rfl⟩

/-- Witness for C7 at concrete equal argument pairs. -/
theorem masker_deterministic_witness :
    mask_full "a".data '*' none = mask_full "a".data '*' none
    ∧ mask_fixed "a".data '*' 1 = mask_fixed "a".data '*' 1
    ∧ mask_partial "a".data '*' 2 2 3 none
        = mask_partial "a".data '*' 2 2 3 none
    ∧ mask_value "a".data ⟨42, 0, 0, 0, 0, 3⟩
        = mask_value "a".data ⟨42, 0, 0, 0, 0, 3⟩
    ∧ mask_with_mode "a".data ShelterMaskMode.Full '*'
        = mask_with_mode "a".data ShelterMaskMode.Full '*' :=
  masker_deterministic "a".data "a".data '*' '*' none none 1 1 2 2 2 2 3 3
    ⟨42, 0, 0, 0, 0, 3⟩ ⟨42, 0, 0, 0, 0, 3⟩
    ShelterMaskMode.Full ShelterMaskMode.Full
    rfl rfl rfl rfl rfl rfl rfl rfl rfl
